import Mathlib

set_option maxHeartbeats 1000000

/-!
Verification development for the smart-home ZigBee simulation repository.

Two source variants are embedded:
* `ExtSim`  — `zigbee-extended-sim.cc` (configurable channel model with
  receiver-sensitivity check, fixed-seed generator `g_rng(42)`).
* `Ver3`    — `smart-home-zigbee-complete-ver3.cc` (constant channel
  parameters, `std::random_device`-seeded generator, no sensitivity check).

Random draws are embedded as a stream `s : Nat → ℝ` of standard-normal
variates together with an explicit read position, mirroring the single
`std::mt19937` generator of each file; `std::normal_distribution(mu, sigma)`
applied to the generator is modelled as `mu + sigma * s p`, consuming one
position per variate.  Timestamps are integers (milliseconds), matching the
`GetMilliSeconds` granularity at which the sources record delays.
-/

namespace SmartHomeZigbee

/-- Lookup of a packet uid in an association list, mirroring
`std::map::count`/`operator[]` reads keyed by `pkt->GetUid()`. -/
def lookupKey (uid : Nat) : List (Nat × Int) → Option Int
  | [] => none
  | (k, t) :: rest => if k = uid then some t else lookupKey uid rest

/-- Removal of a packet uid from an association list, mirroring
`std::map::erase(key)` (keys are unique in a `std::map`). -/
def eraseKey (uid : Nat) : List (Nat × Int) → List (Nat × Int)
  | [] => []
  | (k, t) :: rest => if k = uid then rest else (k, t) :: eraseKey uid rest

theorem lookupKey_eq_none_of_not_mem {uid : Nat} : ∀ {l : List (Nat × Int)},
    uid ∉ l.map Prod.fst → lookupKey uid l = none := by
  intro l
  induction l with
  | nil => intro _; rfl
  | cons hd tl ih =>
    obtain ⟨k, t⟩ := hd
    intro h
    simp only [List.map_cons, List.mem_cons] at h
    push_neg at h
    have hk : k ≠ uid := fun he => h.1 he.symm
    simp only [lookupKey, if_neg hk]
    exact ih h.2

theorem eraseKey_of_not_mem {uid : Nat} : ∀ {l : List (Nat × Int)},
    uid ∉ l.map Prod.fst → eraseKey uid l = l := by
  intro l
  induction l with
  | nil => intro _; rfl
  | cons hd tl ih =>
    obtain ⟨k, t⟩ := hd
    intro h
    simp only [List.map_cons, List.mem_cons] at h
    push_neg at h
    have hk : k ≠ uid := fun he => h.1 he.symm
    simp only [eraseKey, if_neg hk]
    rw [ih h.2]

theorem length_eraseKey_of_mem {uid : Nat} : ∀ {l : List (Nat × Int)},
    uid ∈ l.map Prod.fst → (eraseKey uid l).length + 1 = l.length := by
  intro l
  induction l with
  | nil => intro h; simp at h
  | cons hd tl ih =>
    obtain ⟨k, t⟩ := hd
    intro h
    by_cases hk : k = uid
    · simp [eraseKey, hk]
    · simp only [List.map_cons, List.mem_cons] at h
      rcases h with h | h
      · exact absurd h.symm hk
      · simpa [eraseKey, hk] using ih h

theorem eraseKey_sublist (uid : Nat) : ∀ l : List (Nat × Int),
    (eraseKey uid l).Sublist l := by
  intro l
  induction l with
  | nil => simp [eraseKey]
  | cons hd tl ih =>
    obtain ⟨k, t⟩ := hd
    by_cases hk : k = uid
    · simp [eraseKey, hk]
    · simpa [eraseKey, hk] using List.Sublist.cons₂ (k, t) ih

theorem nodup_keys_eraseKey {uid : Nat} {l : List (Nat × Int)}
    (h : (l.map Prod.fst).Nodup) : ((eraseKey uid l).map Prod.fst).Nodup :=
  h.sublist ((eraseKey_sublist uid l).map Prod.fst)

/-- Network-layer status reported by the external stack's confirm callbacks. -/
inductive NwkStatus
  | SUCCESS
  | FAILURE
  deriving DecidableEq

/-- The join request issued from a discovery-confirm callback.  Its
`extendedPanId` field records the access `m_netDescList[0].m_extPanId`:
`none` means the access was performed on an empty list (out of bounds). -/
structure JoinRequest where
  extendedPanId : Option Nat
  deriving DecidableEq

/-- Calls the orchestrator makes into the external protocol stack. -/
inductive ExtCall
  | apsdeDataRequest (uid : Nat)
  deriving DecidableEq

namespace ExtSim

/-- Possible terminal outcomes of one channel evaluation
(`SimulateChannel` in `zigbee-extended-sim.cc`). -/
inductive Outcome
  | delivered
  | droppedBySensitivity
  | droppedByFading
  | droppedByNoise
  deriving DecidableEq

/-- `ChannelConfig` of `zigbee-extended-sim.cc`, with the source's default
member values. -/
structure ChannelConfig where
  enableNoise : Bool := true
  enableFading : Bool := true
  nodeDistance : ℝ := 10
  numNodes : Nat := 6
  txPowerDbm : ℝ := 4
  refDistance : ℝ := 1
  refPathLossDb : ℝ := 40.77
  pathLossExp : ℝ := 2
  noiseFloorDbm : ℝ := -174
  noiseFigureDb : ℝ := 3
  sensitivityDbm : ℝ := -97
  snrThresholdDb : ℝ := 3

/-- `ChannelConfig::effectiveNoiseDbm`. -/
def ChannelConfig.effectiveNoiseDbm (c : ChannelConfig) : ℝ :=
  c.noiseFloorDbm + c.noiseFigureDb

/-- `GenerateRayleighFading` of `zigbee-extended-sim.cc`: when fading is
disabled return exactly 1.0 without touching the generator; otherwise draw
two `normal_distribution(0, 1/sqrt 2)` variates (positions `p`, `p+1` of the
stream, each scaled by the distribution's sigma) and return the amplitude. -/
noncomputable def GenerateRayleighFading (cfg : ChannelConfig) (s : Nat → ℝ)
    (p : Nat) : ℝ × Nat :=
  if cfg.enableFading = false then (1, p)
  else
    let real := (1 / Real.sqrt 2) * s p
    let imag := (1 / Real.sqrt 2) * s (p + 1)
    (Real.sqrt (real * real + imag * imag), p + 2)

/-- `GenerateNoisePower` of `zigbee-extended-sim.cc`: disabled noise returns
the `-200` floor without a draw; otherwise the effective noise plus one
`normal_distribution(0, 1)` variate. -/
noncomputable def GenerateNoisePower (cfg : ChannelConfig) (s : Nat → ℝ)
    (p : Nat) : ℝ × Nat :=
  if cfg.enableNoise = false then (-200, p)
  else (cfg.effectiveNoiseDbm + s p, p + 1)

/-- `CalculatePathLoss` of `zigbee-extended-sim.cc`:
`PL(d) = PL(d0) + 10 n log10(max(d, d0) / d0)`. -/
noncomputable def CalculatePathLoss (cfg : ChannelConfig) (distance : ℝ) : ℝ :=
  let d := max distance cfg.refDistance
  cfg.refPathLossDb + 10 * cfg.pathLossExp * Real.logb 10 (d / cfg.refDistance)

/-- One channel evaluation's measurements together with its outcome. -/
structure ChannelSample where
  distance : ℝ
  pathLossDb : ℝ
  fadingCoef : ℝ
  fadingDb : ℝ
  rxPowerDbm : ℝ
  noisePowerDbm : ℝ
  snrDb : ℝ
  outcome : Outcome

/-- The pure computation inside `SimulateChannel` of `zigbee-extended-sim.cc`
(steps 1-5 and step 7).  Fading draws come first (positions `p`, `p+1` when
enabled), then the noise draw, all from the single stream; the returned
position is the next unread stream index.  The decision order of step 7 is
preserved: the sensitivity floor is checked first, then the SNR threshold,
and a low-SNR drop is attributed to fading only when the coefficient is
below 0.5 and fading is enabled. -/
noncomputable def SimulateChannel (cfg : ChannelConfig) (distance : ℝ)
    (s : Nat → ℝ) (p : Nat) : ChannelSample × Nat :=
  let pathLossDb := CalculatePathLoss cfg distance
  let f := GenerateRayleighFading cfg s p
  let fadingCoef := f.1
  let fadingDb := 20 * Real.logb 10 (max fadingCoef (1e-10))
  let rxPowerDbm := cfg.txPowerDbm - pathLossDb + fadingDb
  let n := GenerateNoisePower cfg s f.2
  let noisePowerDbm := n.1
  let snrDb := rxPowerDbm - noisePowerDbm
  let outcome :=
    if rxPowerDbm < cfg.sensitivityDbm then Outcome.droppedBySensitivity
    else if snrDb < cfg.snrThresholdDb then
      (if fadingCoef < 0.5 ∧ cfg.enableFading = true then Outcome.droppedByFading
       else Outcome.droppedByNoise)
    else Outcome.delivered
  ({ distance := distance, pathLossDb := pathLossDb, fadingCoef := fadingCoef,
     fadingDb := fadingDb, rxPowerDbm := rxPowerDbm,
     noisePowerDbm := noisePowerDbm, snrDb := snrDb, outcome := outcome }, n.2)

/-- `SimStats` of `zigbee-extended-sim.cc` (the timing fields are kept at the
millisecond granularity the source records; `Seconds(0)` is the `0` sentinel). -/
structure SimStats where
  totalSent : Nat := 0
  totalReceived : Nat := 0
  totalDropped : Nat := 0
  droppedByNoise : Nat := 0
  droppedByFading : Nat := 0
  droppedBySensitivity : Nat := 0
  snrSamples : List ℝ := []
  rxPowerSamples : List ℝ := []
  fadingSamples : List ℝ := []
  distanceSamples : List ℝ := []
  delaysSamples : List Int := []
  sendTimes : List (Nat × Int) := []
  firstSend : Int := 0
  lastRecv : Int := 0

/-- The zero-initialised global `g_stats`. -/
def initStats : SimStats := {}

/-- `SimulateChannel` of `zigbee-extended-sim.cc` including its mutations of
`g_stats`: one distance, SNR, received-power and fading sample is pushed for
every evaluation (the source pushes them before the success checks), and on
a drop exactly the matching cause counter is incremented.  Returns the
success verdict, the updated statistics and the next stream position. -/
noncomputable def SimulateChannelStats (cfg : ChannelConfig) (distance : ℝ)
    (s : Nat → ℝ) (p : Nat) (st : SimStats) : Bool × SimStats × Nat :=
  let r := SimulateChannel cfg distance s p
  let sample := r.1
  let st1 := { st with
    distanceSamples := st.distanceSamples ++ [sample.distance],
    snrSamples := st.snrSamples ++ [sample.snrDb],
    rxPowerSamples := st.rxPowerSamples ++ [sample.rxPowerDbm],
    fadingSamples := st.fadingSamples ++ [sample.fadingCoef] }
  match sample.outcome with
  | Outcome.delivered => (true, st1, r.2)
  | Outcome.droppedBySensitivity =>
      (false, { st1 with droppedBySensitivity := st1.droppedBySensitivity + 1 }, r.2)
  | Outcome.droppedByFading =>
      (false, { st1 with droppedByFading := st1.droppedByFading + 1 }, r.2)
  | Outcome.droppedByNoise =>
      (false, { st1 with droppedByNoise := st1.droppedByNoise + 1 }, r.2)

/-- `SendSensorData` of `zigbee-extended-sim.cc`: count the send, evaluate
the channel, and on a drop record it and return without calling
`ApsdeDataRequest`; on success register the pending delivery keyed by the
packet uid and hand the packet to the external stack. -/
noncomputable def SendSensorData (cfg : ChannelConfig) (s : Nat → ℝ)
    (distance : ℝ) (uid : Nat) (now : Int) (st : SimStats) (p : Nat) :
    SimStats × Nat × List ExtCall :=
  let st0 := { st with
    totalSent := st.totalSent + 1,
    firstSend := if st.firstSend = 0 then now else st.firstSend }
  let r := SimulateChannelStats cfg distance s p st0
  let success := r.1
  let st1 := r.2.1
  let p1 := r.2.2
  if success = false then
    ({ st1 with totalDropped := st1.totalDropped + 1 }, p1, [])
  else
    ({ st1 with sendTimes := (uid, now) :: st1.sendTimes }, p1,
     [ExtCall.apsdeDataRequest uid])

/-- Registration of a pending delivery: `g_stats.sendTimes[uid] = now` on the
success path of `SendSensorData` (the uid of a freshly created packet is not
yet present in the map). -/
def beginPendingDelivery (st : SimStats) (uid : Nat) (t : Int) : SimStats :=
  { st with sendTimes := (uid, t) :: st.sendTimes }

/-- The pending-delivery completion inside `OnDataReceived` of
`zigbee-extended-sim.cc`: if the uid is known, record the delay sample and
erase the entry; an unknown uid is silently skipped. -/
def completePendingDelivery (st : SimStats) (uid : Nat) (now : Int) : SimStats :=
  match lookupKey uid st.sendTimes with
  | some t0 => { st with
      delaysSamples := st.delaysSamples ++ [now - t0],
      sendTimes := eraseKey uid st.sendTimes }
  | none => st

/-- `OnDataReceived` of `zigbee-extended-sim.cc`. -/
def OnDataReceived (st : SimStats) (uid : Nat) (now : Int) : SimStats :=
  let st1 := { st with totalReceived := st.totalReceived + 1, lastRecv := now }
  completePendingDelivery st1 uid now

/-- `OnDataConfirm` of `zigbee-extended-sim.cc`: a non-success confirm from
the external stack counts one more drop. -/
def OnDataConfirm (st : SimStats) (ok : Bool) : SimStats :=
  if ok = false then { st with totalDropped := st.totalDropped + 1 } else st

/-- `OnNetworkDiscovery` of `zigbee-extended-sim.cc`: a join request is
issued only when the confirm reports success AND the discovered-network list
is non-empty; the request uses the first discovered network's identifier. -/
def OnNetworkDiscovery (status : NwkStatus) (netDescList : List Nat) :
    Option JoinRequest :=
  if status = NwkStatus.SUCCESS ∧ netDescList ≠ [] then
    some { extendedPanId := netDescList.get? 0 }
  else none

/-- The callback events of one run that touch the statistics, in the order
the external scheduler fires them. -/
inductive Event
  | send (distance : ℝ) (uid : Nat) (now : Int)
  | recv (uid : Nat) (now : Int)
  | confirm (ok : Bool)

/-- One scheduler callback of `zigbee-extended-sim.cc` acting on the shared
statistics and the shared generator position. -/
noncomputable def step (cfg : ChannelConfig) (s : Nat → ℝ)
    (sp : SimStats × Nat) : Event → SimStats × Nat
  | Event.send d uid now =>
      let r := SendSensorData cfg s d uid now sp.1 sp.2
      (r.1, r.2.1)
  | Event.recv uid now => (OnDataReceived sp.1 uid now, sp.2)
  | Event.confirm ok => (OnDataConfirm sp.1 ok, sp.2)

/-- Folding a list of callback events from a given state. -/
noncomputable def runFrom (cfg : ChannelConfig) (s : Nat → ℝ)
    (sp : SimStats × Nat) (evs : List Event) : SimStats × Nat :=
  evs.foldl (step cfg s) sp

/-- A whole run: the global statistics start zeroed and the single generator
starts at position 0. -/
noncomputable def run (cfg : ChannelConfig) (s : Nat → ℝ) (evs : List Event) :
    SimStats × Nat :=
  runFrom cfg s (initStats, 0) evs

/-- Well-formedness of the external stack's behaviour along a trace: a send
uses a packet uid not currently pending (ns-3 packet uids are unique), and a
receive indication is for a packet the stack was actually handed and that is
still pending (a unicast is delivered at most once). -/
def WFFrom (cfg : ChannelConfig) (s : Nat → ℝ) :
    SimStats × Nat → List Event → Prop
  | _, [] => True
  | sp, ev :: rest =>
      (match ev with
       | Event.send _ uid _ => uid ∉ sp.1.sendTimes.map Prod.fst
       | Event.recv uid _ => uid ∈ sp.1.sendTimes.map Prod.fst
       | Event.confirm _ => True) ∧ WFFrom cfg s (step cfg s sp ev) rest

/-- Number of send events (= unicast channel evaluations) in a trace. -/
def countSends : List Event → Nat
  | [] => 0
  | Event.send _ _ _ :: rest => countSends rest + 1
  | Event.recv _ _ :: rest => countSends rest
  | Event.confirm _ :: rest => countSends rest

end ExtSim

namespace Ver3

/-- Channel model constants of `smart-home-zigbee-complete-ver3.cc`. -/
def NOISE_FLOOR_DBM : ℝ := -95

/-- Transmit power constant of `smart-home-zigbee-complete-ver3.cc`. -/
def TX_POWER_DBM : ℝ := 0

/-- Carrier frequency constant of `smart-home-zigbee-complete-ver3.cc`. -/
def FREQUENCY_GHZ : ℝ := 2.4

/-- Reference distance constant of `smart-home-zigbee-complete-ver3.cc`. -/
def REFERENCE_DISTANCE : ℝ := 1

/-- Path-loss exponent constant of `smart-home-zigbee-complete-ver3.cc`. -/
def PATH_LOSS_EXPONENT : ℝ := 3

/-- SNR threshold constant of `smart-home-zigbee-complete-ver3.cc`. -/
def SNR_THRESHOLD_DB : ℝ := 6

/-- `NetworkStats` of `smart-home-zigbee-complete-ver3.cc` (the power and
per-node bookkeeping fields, which no claim touches, are omitted). -/
structure NetworkStats where
  packetsTransmitted : Nat := 0
  packetsReceived : Nat := 0
  packetsFailed : Nat := 0
  bytesTransmitted : Nat := 0
  bytesReceived : Nat := 0
  routeDiscoveries : Nat := 0
  joinAttempts : Nat := 0
  joinSuccesses : Nat := 0
  groupCommands : Nat := 0
  packetsDroppedByNoise : Nat := 0
  packetsDroppedByFading : Nat := 0
  snrValues : List ℝ := []
  fadingCoefficients : List ℝ := []
  packetSendTimes : List (Nat × Int) := []
  delays : List Int := []

/-- The zero-initialised global `g_stats` of ver3. -/
def initNetworkStats : NetworkStats := {}

/-- `GenerateRayleighFading` of `smart-home-zigbee-complete-ver3.cc`: two
`normal_distribution(0, 1)` draws, amplitude normalised by `sqrt 2`.  Note
that, unlike the extended variant, this function never consults the
`enableFading` configuration flag (the flag ver3's `main` parses is dead):
it draws from the generator unconditionally. -/
noncomputable def GenerateRayleighFading (s : Nat → ℝ) (p : Nat) : ℝ × Nat :=
  let real := s p
  let imag := s (p + 1)
  let amplitude := Real.sqrt (real * real + imag * imag)
  (amplitude / Real.sqrt 2, p + 2)

/-- `CalculatePathLoss` of `smart-home-zigbee-complete-ver3.cc`: distances
below the reference distance are raised to it, then the log-distance model
with a 40 dB reference loss is applied. -/
noncomputable def CalculatePathLoss (distance : ℝ) : ℝ :=
  let d := if distance < REFERENCE_DISTANCE then REFERENCE_DISTANCE else distance
  40 + 10 * PATH_LOSS_EXPONENT * Real.logb 10 (d / REFERENCE_DISTANCE)

/-- `GenerateGaussianNoise` of `smart-home-zigbee-complete-ver3.cc`: one
standard normal draw scaled to a 3 dB standard deviation around the noise
floor.  Like the fading function it ignores the `enableNoise` flag. -/
noncomputable def GenerateGaussianNoise (s : Nat → ℝ) (p : Nat) : ℝ × Nat :=
  (NOISE_FLOOR_DBM + s p * 3, p + 1)

/-- `CalculateReceivedPower` of `smart-home-zigbee-complete-ver3.cc`; returns
the received power, the fading coefficient it produced (the source's
out-parameter) and the next stream position.  There is no epsilon clamp on
the coefficient before taking its logarithm in this variant. -/
noncomputable def CalculateReceivedPower (distance : ℝ) (s : Nat → ℝ)
    (p : Nat) : ℝ × ℝ × Nat :=
  let f := GenerateRayleighFading s p
  let fadingDb := 20 * Real.logb 10 f.1
  let pathLossDb := CalculatePathLoss distance
  (TX_POWER_DBM - pathLossDb + fadingDb, f.1, f.2)

/-- `CalculateSNR` of `smart-home-zigbee-complete-ver3.cc`. -/
def CalculateSNR (rxPowerDbm noisePowerDbm : ℝ) : ℝ :=
  rxPowerDbm - noisePowerDbm

/-- `SimulateChannelEffects` of `smart-home-zigbee-complete-ver3.cc`: it
pushes one SNR and one fading sample unconditionally, then drops the packet
when the SNR is below the (constant) threshold, attributing the drop to
fading for a deep fade (`coefficient < 0.5`) and to noise otherwise.  There
is no receiver-sensitivity check in this variant. -/
noncomputable def SimulateChannelEffects (distance : ℝ) (s : Nat → ℝ)
    (p : Nat) (st : NetworkStats) : Bool × NetworkStats × Nat :=
  let r := CalculateReceivedPower distance s p
  let rxPowerDbm := r.1
  let fadingCoeff := r.2.1
  let n := GenerateGaussianNoise s r.2.2
  let snrDb := CalculateSNR rxPowerDbm n.1
  let st1 := { st with
    snrValues := st.snrValues ++ [snrDb],
    fadingCoefficients := st.fadingCoefficients ++ [fadingCoeff] }
  if snrDb < SNR_THRESHOLD_DB then
    if fadingCoeff < 0.5 then
      (false, { st1 with packetsDroppedByFading := st1.packetsDroppedByFading + 1 }, n.2)
    else
      (false, { st1 with packetsDroppedByNoise := st1.packetsDroppedByNoise + 1 }, n.2)
  else (true, st1, n.2)

/-- `SendTemperatureReading` of `smart-home-zigbee-complete-ver3.cc`: the
channel is evaluated first; a channel drop counts the packet as transmitted
AND failed (in addition to the cause counter the channel evaluation already
incremented) and returns without calling `ApsdeDataRequest`; a delivered
packet registers its send time and is handed to the external stack (payload
size 2 bytes). -/
noncomputable def SendTemperatureReading (distance : ℝ) (uid : Nat)
    (now : Int) (s : Nat → ℝ) (p : Nat) (st : NetworkStats) :
    NetworkStats × Nat × List ExtCall :=
  let r := SimulateChannelEffects distance s p st
  let channelSuccess := r.1
  let st1 := r.2.1
  let p1 := r.2.2
  if channelSuccess = false then
    ({ st1 with
        packetsTransmitted := st1.packetsTransmitted + 1,
        packetsFailed := st1.packetsFailed + 1 }, p1, [])
  else
    ({ st1 with
        packetSendTimes := (uid, now) :: st1.packetSendTimes,
        packetsTransmitted := st1.packetsTransmitted + 1,
        bytesTransmitted := st1.bytesTransmitted + 2 }, p1,
     [ExtCall.apsdeDataRequest uid])

/-- Destination address modes observed by `ApsDataIndication`. -/
inductive AddrMode
  | unicast
  | groupcast
  | unknown
  deriving DecidableEq

/-- `ApsDataIndication` of `smart-home-zigbee-complete-ver3.cc`: count the
reception, complete the pending delivery if the uid is known, and count a
group command for groupcast indications. -/
def ApsDataIndication (st : NetworkStats) (uid : Nat) (size : Nat)
    (now : Int) (mode : AddrMode) : NetworkStats :=
  let st1 := { st with
    packetsReceived := st.packetsReceived + 1,
    bytesReceived := st.bytesReceived + size }
  let st2 :=
    match lookupKey uid st1.packetSendTimes with
    | some t0 => { st1 with
        delays := st1.delays ++ [now - t0],
        packetSendTimes := eraseKey uid st1.packetSendTimes }
    | none => st1
  match mode with
  | AddrMode.groupcast => { st2 with groupCommands := st2.groupCommands + 1 }
  | _ => st2

/-- `SendGroupCommand` of `smart-home-zigbee-complete-ver3.cc`: group sends
bypass the channel evaluation entirely; the packet (1 byte) is counted as
transmitted, registered as pending and always handed to the stack. -/
def SendGroupCommand (st : NetworkStats) (uid : Nat) (now : Int) :
    NetworkStats × List ExtCall :=
  let st1 := { st with
    packetSendTimes := (uid, now) :: st.packetSendTimes,
    packetsTransmitted := st.packetsTransmitted + 1,
    bytesTransmitted := st.bytesTransmitted + 1 }
  (st1, [ExtCall.apsdeDataRequest uid])

/-- `NwkNetworkDiscoveryConfirm` of `smart-home-zigbee-complete-ver3.cc`:
the ONLY guard is `m_status == SUCCESS`; the discovered-network list is not
checked for emptiness before `m_netDescList[0]` is read and a join request
is issued (the `extendedPanId` field records that access: `none` means it
was performed out of bounds on an empty list). -/
def NwkNetworkDiscoveryConfirm (status : NwkStatus) (netDescList : List Nat)
    (st : NetworkStats) : NetworkStats × Option JoinRequest :=
  if status = NwkStatus.SUCCESS then
    ({ st with joinAttempts := st.joinAttempts + 1 },
     some { extendedPanId := netDescList.get? 0 })
  else (st, none)

end Ver3

/-- Claim C7: for every raw distance `d` (including negative and zero
values), `computePathLoss d` equals
`referencePathLoss + 10 * pathLossExponent * log10 (max d refDistance / refDistance)`,
and for every `d ≤ refDistance` (with a positive reference distance) it
returns exactly the reference path loss.  Proved for both variants:
`CalculatePathLoss` of `zigbee-extended-sim.cc` (configurable parameters)
and of `smart-home-zigbee-complete-ver3.cc` (reference distance 1,
exponent 3, reference loss 40 dB). -/
theorem C7_path_loss_formula :
    (∀ (cfg : ExtSim.ChannelConfig) (d : ℝ),
      ExtSim.CalculatePathLoss cfg d =
        cfg.refPathLossDb + 10 * cfg.pathLossExp *
          Real.logb 10 (max d cfg.refDistance / cfg.refDistance)) ∧
    (∀ (cfg : ExtSim.ChannelConfig) (d : ℝ),
      0 < cfg.refDistance → d ≤ cfg.refDistance →
        ExtSim.CalculatePathLoss cfg d = cfg.refPathLossDb) ∧
    (∀ d : ℝ,
      Ver3.CalculatePathLoss d =
        40 + 10 * Ver3.PATH_LOSS_EXPONENT *
          Real.logb 10 (max d Ver3.REFERENCE_DISTANCE / Ver3.REFERENCE_DISTANCE)) ∧
    (∀ d : ℝ, d ≤ Ver3.REFERENCE_DISTANCE → Ver3.CalculatePathLoss d = 40) := by
  refine ⟨fun cfg d => rfl, fun cfg d h0 hd => ?_, fun d => ?_, fun d hd => ?_⟩
  · simp only [ExtSim.CalculatePathLoss, max_eq_right hd,
      div_self (ne_of_gt h0), Real.logb_one, mul_zero, add_zero]
  · simp only [Ver3.CalculatePathLoss]
    rcases lt_or_le d Ver3.REFERENCE_DISTANCE with h | h
    · rw [if_pos h, max_eq_right (le_of_lt h)]
    · rw [if_neg (not_lt.mpr h), max_eq_left h]
  · simp only [Ver3.CalculatePathLoss]
    rcases lt_or_le d Ver3.REFERENCE_DISTANCE with h | h
    · rw [if_pos h]
      simp [Ver3.REFERENCE_DISTANCE, Real.logb_one]
    · have hde : d = Ver3.REFERENCE_DISTANCE := le_antisymm hd h
      rw [if_neg (not_lt.mpr h), hde]
      simp [Ver3.REFERENCE_DISTANCE, Real.logb_one]

/-- Witness for C7: the extended variant's default configuration (reference
distance 1 m) at the raw distance 0.5 m yields exactly the reference loss
40.77 dB, and the ver3 variant yields exactly 40 dB there. -/
theorem C7_path_loss_formula_witness :
    (0 < ({} : ExtSim.ChannelConfig).refDistance ∧
      (1 / 2 : ℝ) ≤ ({} : ExtSim.ChannelConfig).refDistance ∧
      (1 / 2 : ℝ) ≤ Ver3.REFERENCE_DISTANCE) ∧
    ExtSim.CalculatePathLoss {} (1 / 2) = ({} : ExtSim.ChannelConfig).refPathLossDb ∧
    Ver3.CalculatePathLoss (1 / 2) = 40 := by
  have h0 : (0 : ℝ) < ({} : ExtSim.ChannelConfig).refDistance := by norm_num
  have h1 : (1 / 2 : ℝ) ≤ ({} : ExtSim.ChannelConfig).refDistance := by norm_num
  have h2 : (1 / 2 : ℝ) ≤ Ver3.REFERENCE_DISTANCE := by
    norm_num [Ver3.REFERENCE_DISTANCE]
  exact ⟨⟨h0, h1, h2⟩, C7_path_loss_formula.2.1 {} (1 / 2) h0 h1,
    C7_path_loss_formula.2.2.2 (1 / 2) h2⟩

/-- Claim C5: a discovery-completion callback reporting zero discovered
networks must issue no join request, leave the join-attempt counter
unchanged, and never read element 0 of the empty list.  The extended
variant's `OnNetworkDiscovery` satisfies this (second conjunct), but ver3's
`NwkNetworkDiscoveryConfirm` guards only on the status: on `SUCCESS` with an
empty `m_netDescList` it increments `joinAttempts` and issues a join request
whose PAN identifier is read out of bounds (`List.get? 0 [] = none` models
the empty-vector `operator[]` access), violating the claim.  The code, not
the claim, is at fault: indexing an empty `std::vector` is undefined
behaviour, and the sibling variant's `!m_netDescList.empty()` guard shows
the intended behaviour. -/
theorem C5_discovery_empty_list :
    (∀ st : Ver3.NetworkStats,
      Ver3.NwkNetworkDiscoveryConfirm NwkStatus.SUCCESS [] st =
        ({ st with joinAttempts := st.joinAttempts + 1 },
         some { extendedPanId := none })) ∧
    (∀ status : NwkStatus, ExtSim.OnNetworkDiscovery status [] = none) := by
  constructor
  · intro st
    simp [Ver3.NwkNetworkDiscoveryConfirm]
  · intro status
    simp [ExtSim.OnNetworkDiscovery]

/-- Claim C4: for a packet identifier not already pending,
`beginPendingDelivery id t0` followed by `completePendingDelivery id t1`
records the delay `t1 - t0` as a latency sample exactly once and removes the
entry; a second completion for the same id finds nothing, records no sample
and leaves the state unchanged; completion for an unknown id is a silent
no-op (embedded from `OnDataReceived` of `zigbee-extended-sim.cc`; ver3's
`ApsDataIndication` contains the identical map logic). -/
theorem C4_pending_round_trip (st : ExtSim.SimStats) (uid : Nat)
    (t0 t1 t2 : Int) (h : uid ∉ st.sendTimes.map Prod.fst) :
    (ExtSim.completePendingDelivery
        (ExtSim.beginPendingDelivery st uid t0) uid t1).delaysSamples =
      st.delaysSamples ++ [t1 - t0] ∧
    (ExtSim.completePendingDelivery
        (ExtSim.beginPendingDelivery st uid t0) uid t1).sendTimes =
      st.sendTimes ∧
    ExtSim.completePendingDelivery
        (ExtSim.completePendingDelivery
          (ExtSim.beginPendingDelivery st uid t0) uid t1) uid t2 =
      ExtSim.completePendingDelivery
        (ExtSim.beginPendingDelivery st uid t0) uid t1 ∧
    ExtSim.completePendingDelivery st uid t1 = st := by
  have hlook : lookupKey uid ((uid, t0) :: st.sendTimes) = some t0 := by
    simp [lookupKey]
  have herase : eraseKey uid ((uid, t0) :: st.sendTimes) = st.sendTimes := by
    simp [eraseKey]
  have hnone : lookupKey uid st.sendTimes = none :=
    lookupKey_eq_none_of_not_mem h
  constructor
  · simp [ExtSim.completePendingDelivery, ExtSim.beginPendingDelivery, hlook]
  constructor
  · simp [ExtSim.completePendingDelivery, ExtSim.beginPendingDelivery, hlook, herase]
  constructor
  · simp [ExtSim.completePendingDelivery, ExtSim.beginPendingDelivery, hlook,
      herase, hnone]
  · simp [ExtSim.completePendingDelivery, hnone]

/-- Witness for C4: starting from the zeroed statistics, registering packet 5
at time 10 and completing it at time 25 yields the single latency sample 15,
removes the entry, and a repeated completion at time 30 changes nothing. -/
theorem C4_pending_round_trip_witness :
    ((5 : Nat) ∉ ExtSim.initStats.sendTimes.map Prod.fst) ∧
    (ExtSim.completePendingDelivery
        (ExtSim.beginPendingDelivery ExtSim.initStats 5 10) 5 25).delaysSamples =
      ExtSim.initStats.delaysSamples ++ [25 - 10] ∧
    (ExtSim.completePendingDelivery
        (ExtSim.beginPendingDelivery ExtSim.initStats 5 10) 5 25).sendTimes =
      ExtSim.initStats.sendTimes ∧
    ExtSim.completePendingDelivery
        (ExtSim.completePendingDelivery
          (ExtSim.beginPendingDelivery ExtSim.initStats 5 10) 5 25) 5 30 =
      ExtSim.completePendingDelivery
        (ExtSim.beginPendingDelivery ExtSim.initStats 5 10) 5 25 ∧
    ExtSim.completePendingDelivery ExtSim.initStats 5 25 = ExtSim.initStats := by
  have h : (5 : Nat) ∉ ExtSim.initStats.sendTimes.map Prod.fst := by
    simp [ExtSim.initStats]
  have hc := C4_pending_round_trip ExtSim.initStats 5 10 25 30 h
  exact ⟨h, hc.1, hc.2.1, hc.2.2.1, hc.2.2.2⟩

theorem outcome_of_lowPower (cfg : ExtSim.ChannelConfig) (distance : ℝ)
    (s : Nat → ℝ) (p : Nat)
    (h : (ExtSim.SimulateChannel cfg distance s p).1.rxPowerDbm < cfg.sensitivityDbm) :
    (ExtSim.SimulateChannel cfg distance s p).1.outcome =
      ExtSim.Outcome.droppedBySensitivity := by
  simp only [ExtSim.SimulateChannel] at h ⊢
  rw [if_pos h]

/-- Claim C2: whenever the received power computed by a channel evaluation is
strictly below the configured receiver sensitivity, the outcome is
`DroppedBySensitivity`: the verdict is a drop, the sensitivity counter is
incremented, and the fading and noise counters are untouched — with no
constraint whatsoever on the SNR, since the sensitivity check comes first in
`SimulateChannel` of `zigbee-extended-sim.cc`.  (The ver3 variant has no
receiver-sensitivity concept at all, so the claim is decided by the extended
variant, the only one with a configured sensitivity.) -/
theorem C2_sensitivity_precedence (cfg : ExtSim.ChannelConfig) (distance : ℝ)
    (s : Nat → ℝ) (p : Nat) (st : ExtSim.SimStats)
    (h : (ExtSim.SimulateChannel cfg distance s p).1.rxPowerDbm < cfg.sensitivityDbm) :
    (ExtSim.SimulateChannel cfg distance s p).1.outcome =
      ExtSim.Outcome.droppedBySensitivity ∧
    (ExtSim.SimulateChannelStats cfg distance s p st).1 = false ∧
    (ExtSim.SimulateChannelStats cfg distance s p st).2.1.droppedBySensitivity =
      st.droppedBySensitivity + 1 ∧
    (ExtSim.SimulateChannelStats cfg distance s p st).2.1.droppedByFading =
      st.droppedByFading ∧
    (ExtSim.SimulateChannelStats cfg distance s p st).2.1.droppedByNoise =
      st.droppedByNoise := by
  have houtcome := outcome_of_lowPower cfg distance s p h
  refine ⟨houtcome, ?_, ?_, ?_, ?_⟩ <;>
    simp [ExtSim.SimulateChannelStats, houtcome]

/-- The standard-normal stream whose every variate is 1 (used by witnesses:
it makes the Rayleigh amplitude exactly 1 and hence the fading term 0 dB). -/
noncomputable def wstreamOne : Nat → ℝ := fun _ => 1

/-- Witness configuration for the sensitivity check: the source defaults
with the receiver sensitivity raised to 0 dBm (part of the configuration
surface), so that the computed received power of about -36.77 dBm falls
below it while the SNR stays far above the 3 dB threshold. -/
noncomputable def wcfgSens : ExtSim.ChannelConfig := { sensitivityDbm := 0 }

theorem wit_fading_one :
    ExtSim.GenerateRayleighFading wcfgSens wstreamOne 0 = (1, 2) := by
  have h2 : Real.sqrt 2 * Real.sqrt 2 = 2 := Real.mul_self_sqrt (by norm_num)
  have hinv : (Real.sqrt 2)⁻¹ * (Real.sqrt 2)⁻¹ + (Real.sqrt 2)⁻¹ * (Real.sqrt 2)⁻¹ =
      1 := by
    rw [← mul_inv, h2]
    norm_num
  simp only [ExtSim.GenerateRayleighFading, wcfgSens, wstreamOne]
  norm_num [hinv, Real.sqrt_one]

theorem wit_rx_low :
    (ExtSim.SimulateChannel wcfgSens 1 wstreamOne 0).1.rxPowerDbm = 4 - 40.77 := by
  have hpl : ExtSim.CalculatePathLoss wcfgSens 1 = 40.77 := by
    simp [ExtSim.CalculatePathLoss, wcfgSens, Real.logb_one]
  simp only [ExtSim.SimulateChannel, wit_fading_one]
  rw [max_eq_left (by norm_num : (1e-10 : ℝ) ≤ 1), hpl]
  simp [wcfgSens, Real.logb_one]

/-- Witness for C2: with the default configuration except a 0 dBm receiver
sensitivity, an evaluation at 1 m with all variates equal to 1 computes a
received power of -36.77 dBm, below sensitivity, and is classified
`DroppedBySensitivity` with exactly the sensitivity counter incremented —
even though its SNR is far above the threshold. -/
theorem C2_sensitivity_precedence_witness :
    (ExtSim.SimulateChannel wcfgSens 1 wstreamOne 0).1.rxPowerDbm <
      wcfgSens.sensitivityDbm ∧
    (ExtSim.SimulateChannel wcfgSens 1 wstreamOne 0).1.outcome =
      ExtSim.Outcome.droppedBySensitivity ∧
    (ExtSim.SimulateChannelStats wcfgSens 1 wstreamOne 0 ExtSim.initStats).1 = false ∧
    (ExtSim.SimulateChannelStats wcfgSens 1 wstreamOne 0
        ExtSim.initStats).2.1.droppedBySensitivity = 1 := by
  have h : (ExtSim.SimulateChannel wcfgSens 1 wstreamOne 0).1.rxPowerDbm <
      wcfgSens.sensitivityDbm := by
    rw [wit_rx_low]
    norm_num [wcfgSens]
  have hc := C2_sensitivity_precedence wcfgSens 1 wstreamOne 0 ExtSim.initStats h
  exact ⟨h, hc.1, hc.2.1, hc.2.2.1⟩

/-- The stream whose first two variates are 3 and 4 (used to evaluate ver3's
fading draw at a concrete entropy input: the amplitude is 5). -/
noncomputable def wstream34 : Nat → ℝ := fun n => if n = 0 then 3 else 4

/-- Claim C8: with fading disabled by configuration, `sampleFading` returns
exactly 1.0 without consuming any draw, and the `fadingDb` term inside the
evaluation is 0.  This holds in `zigbee-extended-sim.cc` (first three
conjuncts: the coefficient is 1, the stream position is unchanged, the dB
term vanishes).  It FAILS in `smart-home-zigbee-complete-ver3.cc`: that
variant's `GenerateRayleighFading` does not even take the `enableFading`
flag its `main` parses and advertises — it draws from the generator
unconditionally, and at the concrete draws 3, 4 returns the amplitude
`5 / sqrt 2 ≠ 1` after consuming two positions (last conjunct). -/
theorem C8_disabled_fading_idempotence (cfg : ExtSim.ChannelConfig)
    (s : Nat → ℝ) (p : Nat) (d : ℝ) (hf : cfg.enableFading = false) :
    ExtSim.GenerateRayleighFading cfg s p = (1, p) ∧
    (ExtSim.SimulateChannel cfg d s p).1.fadingCoef = 1 ∧
    (ExtSim.SimulateChannel cfg d s p).1.fadingDb = 0 ∧
    (Ver3.GenerateRayleighFading wstream34 0 = (5 / Real.sqrt 2, 2) ∧
      5 / Real.sqrt 2 ≠ (1 : ℝ)) := by
  have hfade : ExtSim.GenerateRayleighFading cfg s p = (1, p) := by
    simp [ExtSim.GenerateRayleighFading, hf]
  have hdb : (20 : ℝ) * Real.logb 10 (max 1 (1e-10)) = 0 := by
    rw [max_eq_left (by norm_num : (1e-10 : ℝ) ≤ 1)]
    simp [Real.logb_one]
  refine ⟨hfade, ?_, ?_, ?_, ?_⟩
  · simp only [ExtSim.SimulateChannel, hfade]
  · simp only [ExtSim.SimulateChannel, hfade]
    exact hdb
  · have h25 : Real.sqrt 25 = 5 := by
      rw [show (25 : ℝ) = 5 ^ 2 by norm_num]
      exact Real.sqrt_sq (by norm_num)
    simp only [Ver3.GenerateRayleighFading, wstream34]
    norm_num [h25]
  · have hlt : Real.sqrt 2 < 5 := by
      have h4 : Real.sqrt 4 = 2 := by
        rw [show (4 : ℝ) = 2 ^ 2 by norm_num]
        exact Real.sqrt_sq (by norm_num)
      calc Real.sqrt 2 ≤ Real.sqrt 4 := Real.sqrt_le_sqrt (by norm_num)
        _ = 2 := h4
        _ < 5 := by norm_num
    have hpos : (0 : ℝ) < Real.sqrt 2 := Real.sqrt_pos.mpr (by norm_num)
    have hgt : (1 : ℝ) < 5 / Real.sqrt 2 := (one_lt_div hpos).mpr hlt
    exact ne_of_gt hgt

/-- Witness configuration: the extended variant's defaults with both the
noise and fading flags cleared (`--noise=0 --fading=0`). -/
noncomputable def wcfgOff : ExtSim.ChannelConfig :=
  { enableNoise := false, enableFading := false }

/-- Witness for C8: at the disabled-fading configuration `wcfgOff`, the
extended variant's fading sample is exactly 1 with the stream untouched and
the fading term of the evaluation at 1 m is 0 dB. -/
theorem C8_disabled_fading_idempotence_witness :
    wcfgOff.enableFading = false ∧
    ExtSim.GenerateRayleighFading wcfgOff wstreamOne 0 = (1, 0) ∧
    (ExtSim.SimulateChannel wcfgOff 1 wstreamOne 0).1.fadingCoef = 1 ∧
    (ExtSim.SimulateChannel wcfgOff 1 wstreamOne 0).1.fadingDb = 0 := by
  have hf : wcfgOff.enableFading = false := rfl
  have hc := C8_disabled_fading_idempotence wcfgOff wstreamOne 0 1 hf
  exact ⟨hf, hc.1, hc.2.1, hc.2.2.1⟩

/-- Claim C9: with fading and noise disabled and the other parameters fixed
(at any values with a non-negative path-loss exponent and a positive
reference distance, as both variants configure them), the received power
computed by an evaluation of `SimulateChannel` in `zigbee-extended-sim.cc`
is non-increasing in distance. -/
theorem C9_monotone_distance (cfg : ExtSim.ChannelConfig) (s : Nat → ℝ)
    (p q : Nat) (d1 d2 : ℝ) (hf : cfg.enableFading = false)
    (_hn : cfg.enableNoise = false) (hexp : 0 ≤ cfg.pathLossExp)
    (href : 0 < cfg.refDistance) (hd : d1 < d2) :
    (ExtSim.SimulateChannel cfg d2 s q).1.rxPowerDbm ≤
      (ExtSim.SimulateChannel cfg d1 s p).1.rxPowerDbm := by
  have hrx : ∀ (d : ℝ) (r : Nat),
      (ExtSim.SimulateChannel cfg d s r).1.rxPowerDbm =
        cfg.txPowerDbm - ExtSim.CalculatePathLoss cfg d := by
    intro d r
    have hfade : ExtSim.GenerateRayleighFading cfg s r = (1, r) := by
      simp [ExtSim.GenerateRayleighFading, hf]
    simp only [ExtSim.SimulateChannel, hfade]
    rw [max_eq_left (by norm_num : (1e-10 : ℝ) ≤ 1)]
    simp [Real.logb_one]
  rw [hrx d2 q, hrx d1 p]
  have hmax : max d1 cfg.refDistance ≤ max d2 cfg.refDistance :=
    max_le_max (le_of_lt hd) le_rfl
  have hpos1 : 0 < max d1 cfg.refDistance / cfg.refDistance :=
    div_pos (lt_of_lt_of_le href (le_max_right _ _)) href
  have hlog : Real.logb 10 (max d1 cfg.refDistance / cfg.refDistance) ≤
      Real.logb 10 (max d2 cfg.refDistance / cfg.refDistance) :=
    Real.logb_le_logb_of_le (by norm_num) hpos1
      ((div_le_div_iff_of_pos_right href).mpr hmax)
  have hpl : ExtSim.CalculatePathLoss cfg d1 ≤ ExtSim.CalculatePathLoss cfg d2 := by
    simp only [ExtSim.CalculatePathLoss]
    exact add_le_add_left
      (mul_le_mul_of_nonneg_left hlog (mul_nonneg (by norm_num) hexp)) _
  exact sub_le_sub_left hpl _

/-- Witness for C9: with `wcfgOff` (noise and fading disabled, exponent 2,
reference distance 1), the received power at 2 m is at most the received
power at 1 m. -/
theorem C9_monotone_distance_witness :
    (wcfgOff.enableFading = false ∧ wcfgOff.enableNoise = false ∧
      (0 : ℝ) ≤ wcfgOff.pathLossExp ∧ (0 : ℝ) < wcfgOff.refDistance ∧
      (1 : ℝ) < 2) ∧
    (ExtSim.SimulateChannel wcfgOff 2 wstreamOne 0).1.rxPowerDbm ≤
      (ExtSim.SimulateChannel wcfgOff 1 wstreamOne 0).1.rxPowerDbm := by
  have hexp : (0 : ℝ) ≤ wcfgOff.pathLossExp := by norm_num [wcfgOff]
  have href : (0 : ℝ) < wcfgOff.refDistance := by norm_num [wcfgOff]
  exact ⟨⟨rfl, rfl, hexp, href, by norm_num⟩,
    C9_monotone_distance wcfgOff wstreamOne 0 0 1 2 rfl rfl hexp href
      (by norm_num)⟩

theorem lookupKey_isSome_of_mem {uid : Nat} : ∀ {l : List (Nat × Int)},
    uid ∈ l.map Prod.fst → ∃ t, lookupKey uid l = some t := by
  intro l
  induction l with
  | nil => intro h; simp at h
  | cons hd tl ih =>
    obtain ⟨k, t⟩ := hd
    intro h
    by_cases hk : k = uid
    · exact ⟨t, by simp [lookupKey, hk]⟩
    · simp only [List.map_cons, List.mem_cons] at h
      rcases h with h | h
      · exact absurd h.symm hk
      · obtain ⟨u, hu⟩ := ih h
        exact ⟨u, by simp [lookupKey, hk, hu]⟩

/-- Total number of cause-classified channel drops in the extended variant's
statistics. -/
def causeSum (st : ExtSim.SimStats) : Nat :=
  st.droppedByNoise + st.droppedByFading + st.droppedBySensitivity

theorem ext_channelStats_shape (cfg : ExtSim.ChannelConfig) (d : ℝ)
    (s : Nat → ℝ) (p : Nat) (st : ExtSim.SimStats) :
    (ExtSim.SimulateChannelStats cfg d s p st).2.1.totalSent = st.totalSent ∧
    (ExtSim.SimulateChannelStats cfg d s p st).2.1.totalReceived = st.totalReceived ∧
    (ExtSim.SimulateChannelStats cfg d s p st).2.1.sendTimes = st.sendTimes ∧
    (ExtSim.SimulateChannelStats cfg d s p st).2.1.delaysSamples = st.delaysSamples ∧
    (((ExtSim.SimulateChannelStats cfg d s p st).1 = true ∧
        causeSum (ExtSim.SimulateChannelStats cfg d s p st).2.1 = causeSum st) ∨
      ((ExtSim.SimulateChannelStats cfg d s p st).1 = false ∧
        causeSum (ExtSim.SimulateChannelStats cfg d s p st).2.1 = causeSum st + 1)) := by
  cases houtcome : (ExtSim.SimulateChannel cfg d s p).1.outcome <;>
    simp [ExtSim.SimulateChannelStats, houtcome, causeSum] <;> omega

theorem ext_send_shape (cfg : ExtSim.ChannelConfig) (s : Nat → ℝ) (d : ℝ)
    (uid : Nat) (now : Int) (st : ExtSim.SimStats) (p : Nat) :
    (ExtSim.SendSensorData cfg s d uid now st p).1.totalSent = st.totalSent + 1 ∧
    (ExtSim.SendSensorData cfg s d uid now st p).1.totalReceived = st.totalReceived ∧
    (ExtSim.SendSensorData cfg s d uid now st p).1.delaysSamples = st.delaysSamples ∧
    ((causeSum (ExtSim.SendSensorData cfg s d uid now st p).1 = causeSum st ∧
        (ExtSim.SendSensorData cfg s d uid now st p).1.sendTimes =
          (uid, now) :: st.sendTimes ∧
        (ExtSim.SendSensorData cfg s d uid now st p).2.2 =
          [ExtCall.apsdeDataRequest uid]) ∨
      (causeSum (ExtSim.SendSensorData cfg s d uid now st p).1 = causeSum st + 1 ∧
        (ExtSim.SendSensorData cfg s d uid now st p).1.sendTimes = st.sendTimes ∧
        (ExtSim.SendSensorData cfg s d uid now st p).2.2 = [])) := by
  cases houtcome : (ExtSim.SimulateChannel cfg d s p).1.outcome <;>
    simp [ExtSim.SendSensorData, ExtSim.SimulateChannelStats, houtcome, causeSum] <;>
    omega

theorem v3_channel_shape (d : ℝ) (s : Nat → ℝ) (p : Nat)
    (st : Ver3.NetworkStats) :
    (Ver3.SimulateChannelEffects d s p st).2.1.packetsTransmitted =
      st.packetsTransmitted ∧
    (Ver3.SimulateChannelEffects d s p st).2.1.packetsReceived =
      st.packetsReceived ∧
    (Ver3.SimulateChannelEffects d s p st).2.1.packetsFailed = st.packetsFailed ∧
    (Ver3.SimulateChannelEffects d s p st).2.1.packetSendTimes =
      st.packetSendTimes ∧
    (((Ver3.SimulateChannelEffects d s p st).1 = true ∧
        (Ver3.SimulateChannelEffects d s p st).2.1.packetsDroppedByNoise +
          (Ver3.SimulateChannelEffects d s p st).2.1.packetsDroppedByFading =
        st.packetsDroppedByNoise + st.packetsDroppedByFading) ∨
      ((Ver3.SimulateChannelEffects d s p st).1 = false ∧
        (Ver3.SimulateChannelEffects d s p st).2.1.packetsDroppedByNoise +
          (Ver3.SimulateChannelEffects d s p st).2.1.packetsDroppedByFading =
        st.packetsDroppedByNoise + st.packetsDroppedByFading + 1)) := by
  simp only [Ver3.SimulateChannelEffects]
  split
  · split <;> simp <;> omega
  · simp

/-- Claim C3: for every unicast application-data send whose channel verdict
is a drop, the sent counter and exactly one cause-classified drop counter
are incremented and the function returns without invoking the external send
primitive: no `ApsdeDataRequest` is issued and no pending-delivery entry is
created.  Proved for `SendSensorData` of `zigbee-extended-sim.cc` (first
conjunct) and `SendTemperatureReading` of
`smart-home-zigbee-complete-ver3.cc` (second conjunct; that variant
additionally counts the drop in `packetsFailed`, which the claim does not
exclude). -/
theorem C3_drop_short_circuit :
    (∀ (cfg : ExtSim.ChannelConfig) (s : Nat → ℝ) (d : ℝ) (uid : Nat)
        (now : Int) (st : ExtSim.SimStats) (p : Nat),
      (ExtSim.SimulateChannel cfg d s p).1.outcome ≠ ExtSim.Outcome.delivered →
        (ExtSim.SendSensorData cfg s d uid now st p).1.totalSent =
          st.totalSent + 1 ∧
        causeSum (ExtSim.SendSensorData cfg s d uid now st p).1 =
          causeSum st + 1 ∧
        (ExtSim.SendSensorData cfg s d uid now st p).2.2 = [] ∧
        (ExtSim.SendSensorData cfg s d uid now st p).1.sendTimes =
          st.sendTimes) ∧
    (∀ (d : ℝ) (uid : Nat) (now : Int) (s : Nat → ℝ) (p : Nat)
        (st : Ver3.NetworkStats),
      (Ver3.SimulateChannelEffects d s p st).1 = false →
        (Ver3.SendTemperatureReading d uid now s p st).1.packetsTransmitted =
          st.packetsTransmitted + 1 ∧
        (Ver3.SendTemperatureReading d uid now s p st).1.packetsDroppedByNoise +
          (Ver3.SendTemperatureReading d uid now s p st).1.packetsDroppedByFading =
          st.packetsDroppedByNoise + st.packetsDroppedByFading + 1 ∧
        (Ver3.SendTemperatureReading d uid now s p st).2.2 = [] ∧
        (Ver3.SendTemperatureReading d uid now s p st).1.packetSendTimes =
          st.packetSendTimes) := by
  constructor
  · intro cfg s d uid now st p h
    cases houtcome : (ExtSim.SimulateChannel cfg d s p).1.outcome
    case delivered => exact absurd houtcome h
    all_goals (
      simp [ExtSim.SendSensorData, ExtSim.SimulateChannelStats, houtcome, causeSum]
      try omega)
  · intro d uid now s p st h
    have hshape := v3_channel_shape d s p st
    rcases hshape.2.2.2.2 with ⟨ht, _⟩ | ⟨_, hc⟩
    · rw [ht] at h
      exact absurd h (by simp)
    · refine ⟨?_, ?_, ?_, ?_⟩ <;>
        · simp [Ver3.SendTemperatureReading, h, hshape.1, hshape.2.2.2.1]
          try omega

/-- Entropy stream making ver3's channel drop a packet by noise: the two
fading variates are 1 (amplitude exactly 1, no fading attenuation) and the
noise variate is 20 (noise power -35 dBm, far above the -40 dBm received
power at 1 m). -/
noncomputable def wstreamNoise : Nat → ℝ := fun n => if n = 2 then 20 else 1

theorem v3_fading_one : Ver3.GenerateRayleighFading wstreamNoise 0 = (1, 2) := by
  have h2 : Real.sqrt 2 / Real.sqrt 2 = 1 :=
    div_self (Real.sqrt_ne_zero'.mpr (by norm_num))
  simp only [Ver3.GenerateRayleighFading, wstreamNoise]
  norm_num [h2]

theorem v3_pathLoss_one : Ver3.CalculatePathLoss 1 = 40 := by
  simp only [Ver3.CalculatePathLoss, Ver3.REFERENCE_DISTANCE,
    Ver3.PATH_LOSS_EXPONENT]
  norm_num [Real.logb_one]

theorem v3_rx_eval : Ver3.CalculateReceivedPower 1 wstreamNoise 0 = (-40, 1, 2) := by
  simp only [Ver3.CalculateReceivedPower, v3_fading_one, v3_pathLoss_one,
    Ver3.TX_POWER_DBM]
  norm_num [Real.logb_one]

theorem v3_noise_eval : Ver3.GenerateGaussianNoise wstreamNoise 2 = (-35, 3) := by
  simp only [Ver3.GenerateGaussianNoise, wstreamNoise, Ver3.NOISE_FLOOR_DBM]
  norm_num

theorem v3_eval_drop :
    (Ver3.SimulateChannelEffects 1 wstreamNoise 0 Ver3.initNetworkStats).1 = false ∧
    (Ver3.SimulateChannelEffects 1 wstreamNoise 0
        Ver3.initNetworkStats).2.1.packetsDroppedByNoise = 1 ∧
    (Ver3.SimulateChannelEffects 1 wstreamNoise 0
        Ver3.initNetworkStats).2.1.packetsDroppedByFading = 0 := by
  have hsnr : Ver3.CalculateSNR (-40) (-35) = -5 := by
    simp [Ver3.CalculateSNR]
    norm_num
  simp only [Ver3.SimulateChannelEffects, v3_rx_eval, v3_noise_eval, hsnr]
  rw [if_pos (by norm_num [Ver3.SNR_THRESHOLD_DB] : (-5 : ℝ) < Ver3.SNR_THRESHOLD_DB),
    if_neg (by norm_num : ¬((1 : ℝ) < 0.5))]
  simp [Ver3.initNetworkStats]

/-- Witness for C3: the extended variant at the low-sensitivity witness
configuration (verdict `DroppedBySensitivity`) and ver3 at the noisy
entropy stream (verdict: SNR -5 dB below the 6 dB threshold) both
short-circuit: the sent counter rises by one, exactly one cause counter
rises by one, no call reaches the external stack and no pending entry is
created. -/
theorem C3_drop_short_circuit_witness :
    ((ExtSim.SimulateChannel wcfgSens 1 wstreamOne 0).1.outcome ≠
        ExtSim.Outcome.delivered ∧
      (Ver3.SimulateChannelEffects 1 wstreamNoise 0 Ver3.initNetworkStats).1 =
        false) ∧
    (ExtSim.SendSensorData wcfgSens wstreamOne 1 7 0 ExtSim.initStats 0).1.totalSent = 1 ∧
    (ExtSim.SendSensorData wcfgSens wstreamOne 1 7 0 ExtSim.initStats 0).2.2 = [] ∧
    (Ver3.SendTemperatureReading 1 7 0 wstreamNoise 0
        Ver3.initNetworkStats).1.packetsTransmitted = 1 ∧
    (Ver3.SendTemperatureReading 1 7 0 wstreamNoise 0
        Ver3.initNetworkStats).2.2 = [] := by
  have hext : (ExtSim.SimulateChannel wcfgSens 1 wstreamOne 0).1.outcome ≠
      ExtSim.Outcome.delivered := by
    have hlow : (ExtSim.SimulateChannel wcfgSens 1 wstreamOne 0).1.rxPowerDbm <
        wcfgSens.sensitivityDbm := by
      rw [wit_rx_low]
      norm_num [wcfgSens]
    rw [outcome_of_lowPower wcfgSens 1 wstreamOne 0 hlow]
    simp
  have hv3 := v3_eval_drop.1
  have hc := C3_drop_short_circuit
  have h1 := hc.1 wcfgSens wstreamOne 1 7 0 ExtSim.initStats 0 hext
  have h2 := hc.2 1 7 0 wstreamNoise 0 Ver3.initNetworkStats hv3
  refine ⟨⟨hext, hv3⟩, ?_, h1.2.2.1, ?_, h2.2.2.1⟩
  · rw [h1.1]
    rfl
  · rw [h2.1]
    rfl

/-- Counterexample for C1 as stated: in
`smart-home-zigbee-complete-ver3.cc` a single unicast send whose channel
verdict is a noise drop increments `packetsTransmitted` once but BOTH the
cause counter `packetsDroppedByNoise` and the failure counter
`packetsFailed` (`SendTemperatureReading`, drop branch), so
`received + droppedByNoise + droppedByFading + droppedBySensitivity +
externalStackFailures = 0 + 1 + 0 + 0 + 1 = 2 > 1 = sent` already after the
first send (this variant has no `droppedBySensitivity` counter; the claim's
sum is evaluated with that term identically zero, which only makes the sum
smaller). -/
theorem C1_claim_counterexample :
    (Ver3.SendTemperatureReading 1 0 0 wstreamNoise 0
        Ver3.initNetworkStats).1.packetsTransmitted = 1 ∧
    (Ver3.SendTemperatureReading 1 0 0 wstreamNoise 0
        Ver3.initNetworkStats).1.packetsReceived = 0 ∧
    (Ver3.SendTemperatureReading 1 0 0 wstreamNoise 0
        Ver3.initNetworkStats).1.packetsDroppedByNoise = 1 ∧
    (Ver3.SendTemperatureReading 1 0 0 wstreamNoise 0
        Ver3.initNetworkStats).1.packetsDroppedByFading = 0 ∧
    (Ver3.SendTemperatureReading 1 0 0 wstreamNoise 0
        Ver3.initNetworkStats).1.packetsFailed = 1 ∧
    ¬((Ver3.SendTemperatureReading 1 0 0 wstreamNoise 0
          Ver3.initNetworkStats).1.packetsReceived +
        (Ver3.SendTemperatureReading 1 0 0 wstreamNoise 0
          Ver3.initNetworkStats).1.packetsDroppedByNoise +
        (Ver3.SendTemperatureReading 1 0 0 wstreamNoise 0
          Ver3.initNetworkStats).1.packetsDroppedByFading +
        (Ver3.SendTemperatureReading 1 0 0 wstreamNoise 0
          Ver3.initNetworkStats).1.packetsFailed ≤
        (Ver3.SendTemperatureReading 1 0 0 wstreamNoise 0
          Ver3.initNetworkStats).1.packetsTransmitted) := by
  have hshape := v3_channel_shape 1 wstreamNoise 0 Ver3.initNetworkStats
  have hdrop := v3_eval_drop
  have h1 : (Ver3.SendTemperatureReading 1 0 0 wstreamNoise 0
      Ver3.initNetworkStats).1.packetsTransmitted = 1 := by
    simp [Ver3.SendTemperatureReading, hdrop.1, hshape.1]
    rfl
  have h2 : (Ver3.SendTemperatureReading 1 0 0 wstreamNoise 0
      Ver3.initNetworkStats).1.packetsReceived = 0 := by
    simp [Ver3.SendTemperatureReading, hdrop.1, hshape.2.1]
    rfl
  have h3 : (Ver3.SendTemperatureReading 1 0 0 wstreamNoise 0
      Ver3.initNetworkStats).1.packetsDroppedByNoise = 1 := by
    simp [Ver3.SendTemperatureReading, hdrop.1, hdrop.2.1]
  have h4 : (Ver3.SendTemperatureReading 1 0 0 wstreamNoise 0
      Ver3.initNetworkStats).1.packetsDroppedByFading = 0 := by
    simp [Ver3.SendTemperatureReading, hdrop.1, hdrop.2.2]
  have h5 : (Ver3.SendTemperatureReading 1 0 0 wstreamNoise 0
      Ver3.initNetworkStats).1.packetsFailed = 1 := by
    simp [Ver3.SendTemperatureReading, hdrop.1, hshape.2.2.1]
    rfl
  refine ⟨h1, h2, h3, h4, h5, ?_⟩
  rw [h1, h2, h3, h4, h5]
  omega

theorem ext_recv_shape (st : ExtSim.SimStats) (uid : Nat) (now : Int)
    (hmem : uid ∈ st.sendTimes.map Prod.fst) :
    (ExtSim.OnDataReceived st uid now).totalReceived = st.totalReceived + 1 ∧
    (ExtSim.OnDataReceived st uid now).totalSent = st.totalSent ∧
    causeSum (ExtSim.OnDataReceived st uid now) = causeSum st ∧
    (ExtSim.OnDataReceived st uid now).sendTimes = eraseKey uid st.sendTimes := by
  obtain ⟨t0, ht0⟩ := lookupKey_isSome_of_mem hmem
  simp [ExtSim.OnDataReceived, ExtSim.completePendingDelivery, ht0, causeSum]

theorem ext_confirm_shape (st : ExtSim.SimStats) (ok : Bool) :
    (ExtSim.OnDataConfirm st ok).totalReceived = st.totalReceived ∧
    (ExtSim.OnDataConfirm st ok).totalSent = st.totalSent ∧
    causeSum (ExtSim.OnDataConfirm st ok) = causeSum st ∧
    (ExtSim.OnDataConfirm st ok).sendTimes = st.sendTimes := by
  by_cases h : ok = false <;> simp [ExtSim.OnDataConfirm, h, causeSum]

/-- The inductive accounting invariant of the extended variant's statistics:
every sent packet is accounted for exactly once (received, cause-classified
channel drop, or still pending), and the pending uids are distinct. -/
def ExtInv (st : ExtSim.SimStats) : Prop :=
  st.totalReceived + causeSum st + st.sendTimes.length = st.totalSent ∧
  (st.sendTimes.map Prod.fst).Nodup

theorem runFrom_inv (cfg : ExtSim.ChannelConfig) (s : Nat → ℝ) :
    ∀ (evs : List ExtSim.Event) (sp : ExtSim.SimStats × Nat),
      ExtInv sp.1 → ExtSim.WFFrom cfg s sp evs →
      ExtInv (ExtSim.runFrom cfg s sp evs).1 := by
  intro evs
  induction evs with
  | nil =>
    intro sp h _
    simpa [ExtSim.runFrom] using h
  | cons ev rest ih =>
    intro sp hinv hwf
    simp only [ExtSim.WFFrom] at hwf
    obtain ⟨hev, hwfrest⟩ := hwf
    have hstep : ExtInv (ExtSim.step cfg s sp ev).1 := by
      cases ev with
      | send d uid now =>
        have hs := ext_send_shape cfg s d uid now sp.1 sp.2
        simp only [ExtSim.step]
        constructor
        · have hinv1 := hinv.1
          rcases hs.2.2.2 with ⟨hc, hsend, -⟩ | ⟨hc, hsend, -⟩ <;>
            · rw [hs.1, hs.2.1, hc, hsend]
              try simp only [List.length_cons]
              omega
        · rcases hs.2.2.2 with ⟨-, hsend, -⟩ | ⟨-, hsend, -⟩
          · rw [hsend]
            simp only [List.map_cons, List.nodup_cons]
            exact ⟨hev, hinv.2⟩
          · rw [hsend]
            exact hinv.2
      | recv uid now =>
        have hr := ext_recv_shape sp.1 uid now hev
        have hlen := length_eraseKey_of_mem hev
        have hinv1 := hinv.1
        simp only [ExtSim.step]
        constructor
        · rw [hr.1, hr.2.1, hr.2.2.1, hr.2.2.2]
          omega
        · rw [hr.2.2.2]
          exact nodup_keys_eraseKey hinv.2
      | confirm ok =>
        have hc := ext_confirm_shape sp.1 ok
        simp only [ExtSim.step]
        exact ⟨by rw [hc.1, hc.2.1, hc.2.2.1, hc.2.2.2]; exact hinv.1,
          by rw [hc.2.2.2]; exact hinv.2⟩
    have hrest := ih (ExtSim.step cfg s sp ev) hstep hwfrest
    simpa [ExtSim.runFrom] using hrest

/-- Claim C1 as amended: along every well-formed run of the extended
variant's orchestrator (`SendSensorData` / `OnDataReceived` /
`OnDataConfirm` of `zigbee-extended-sim.cc`, with each receive indication
consuming a distinct pending packet and fresh packet uids) the counters
satisfy `received + droppedByNoise + droppedByFading + droppedBySensitivity
≤ sent` at run end — and, since the run is arbitrary, at every intermediate
point — with equality when no packets are still pending.  The claim's
original sum additionally includes the external-stack failure counter; that
version is false on the code (see the counterexample: ver3 counts a
channel-dropped packet both in a cause counter and in `packetsFailed`), so
the failure counter is excluded here. -/
theorem C1_sent_accounting (cfg : ExtSim.ChannelConfig) (s : Nat → ℝ)
    (evs : List ExtSim.Event)
    (hwf : ExtSim.WFFrom cfg s (ExtSim.initStats, 0) evs) :
    (ExtSim.run cfg s evs).1.totalReceived +
      (ExtSim.run cfg s evs).1.droppedByNoise +
      (ExtSim.run cfg s evs).1.droppedByFading +
      (ExtSim.run cfg s evs).1.droppedBySensitivity ≤
      (ExtSim.run cfg s evs).1.totalSent ∧
    ((ExtSim.run cfg s evs).1.sendTimes = [] →
      (ExtSim.run cfg s evs).1.totalReceived +
        (ExtSim.run cfg s evs).1.droppedByNoise +
        (ExtSim.run cfg s evs).1.droppedByFading +
        (ExtSim.run cfg s evs).1.droppedBySensitivity =
        (ExtSim.run cfg s evs).1.totalSent) := by
  have h0 : ExtInv ExtSim.initStats := by
    constructor
    · rfl
    · simp [ExtSim.initStats]
  have h := runFrom_inv cfg s evs (ExtSim.initStats, 0) h0 hwf
  have heq := h.1
  unfold causeSum at heq
  constructor
  · simp only [ExtSim.run]
    omega
  · intro hnil
    simp only [ExtSim.run] at hnil ⊢
    rw [hnil] at heq
    simp only [List.length_nil] at heq
    omega

/-- Witness for C1: a one-event run (a single unicast send at 1 m under the
low-sensitivity witness configuration, which the channel drops by
sensitivity) is well formed, and the accounting inequality and the
equality-when-nothing-pending implication hold for it. -/
theorem C1_sent_accounting_witness :
    ExtSim.WFFrom wcfgSens wstreamOne (ExtSim.initStats, 0)
      [ExtSim.Event.send 1 7 0] ∧
    ((ExtSim.run wcfgSens wstreamOne [ExtSim.Event.send 1 7 0]).1.totalReceived +
        (ExtSim.run wcfgSens wstreamOne [ExtSim.Event.send 1 7 0]).1.droppedByNoise +
        (ExtSim.run wcfgSens wstreamOne [ExtSim.Event.send 1 7 0]).1.droppedByFading +
        (ExtSim.run wcfgSens wstreamOne [ExtSim.Event.send 1 7 0]).1.droppedBySensitivity ≤
        (ExtSim.run wcfgSens wstreamOne [ExtSim.Event.send 1 7 0]).1.totalSent) := by
  have hwf : ExtSim.WFFrom wcfgSens wstreamOne (ExtSim.initStats, 0)
      [ExtSim.Event.send 1 7 0] := by
    refine ⟨?_, trivial⟩
    simp [ExtSim.initStats]
  exact ⟨hwf, (C1_sent_accounting wcfgSens wstreamOne
    [ExtSim.Event.send 1 7 0] hwf).1⟩

theorem ext_send_lists (cfg : ExtSim.ChannelConfig) (s : Nat → ℝ) (d : ℝ)
    (uid : Nat) (now : Int) (st : ExtSim.SimStats) (p : Nat) :
    (ExtSim.SendSensorData cfg s d uid now st p).1.snrSamples.length =
      st.snrSamples.length + 1 ∧
    (ExtSim.SendSensorData cfg s d uid now st p).1.fadingSamples.length =
      st.fadingSamples.length + 1 ∧
    (ExtSim.SendSensorData cfg s d uid now st p).1.rxPowerSamples.length =
      st.rxPowerSamples.length + 1 ∧
    (ExtSim.SendSensorData cfg s d uid now st p).1.distanceSamples.length =
      st.distanceSamples.length + 1 := by
  cases houtcome : (ExtSim.SimulateChannel cfg d s p).1.outcome <;>
    simp [ExtSim.SendSensorData, ExtSim.SimulateChannelStats, houtcome]

theorem ext_recv_lists (st : ExtSim.SimStats) (uid : Nat) (now : Int) :
    (ExtSim.OnDataReceived st uid now).snrSamples = st.snrSamples ∧
    (ExtSim.OnDataReceived st uid now).fadingSamples = st.fadingSamples ∧
    (ExtSim.OnDataReceived st uid now).rxPowerSamples = st.rxPowerSamples ∧
    (ExtSim.OnDataReceived st uid now).distanceSamples = st.distanceSamples := by
  cases hl : lookupKey uid st.sendTimes <;>
    simp [ExtSim.OnDataReceived, ExtSim.completePendingDelivery, hl]

theorem ext_confirm_lists (st : ExtSim.SimStats) (ok : Bool) :
    (ExtSim.OnDataConfirm st ok).snrSamples = st.snrSamples ∧
    (ExtSim.OnDataConfirm st ok).fadingSamples = st.fadingSamples ∧
    (ExtSim.OnDataConfirm st ok).rxPowerSamples = st.rxPowerSamples ∧
    (ExtSim.OnDataConfirm st ok).distanceSamples = st.distanceSamples := by
  by_cases h : ok = false <;> simp [ExtSim.OnDataConfirm, h]

theorem runFrom_lists (cfg : ExtSim.ChannelConfig) (s : Nat → ℝ) :
    ∀ (evs : List ExtSim.Event) (sp : ExtSim.SimStats × Nat),
      (ExtSim.runFrom cfg s sp evs).1.snrSamples.length =
        sp.1.snrSamples.length + ExtSim.countSends evs ∧
      (ExtSim.runFrom cfg s sp evs).1.fadingSamples.length =
        sp.1.fadingSamples.length + ExtSim.countSends evs ∧
      (ExtSim.runFrom cfg s sp evs).1.rxPowerSamples.length =
        sp.1.rxPowerSamples.length + ExtSim.countSends evs ∧
      (ExtSim.runFrom cfg s sp evs).1.distanceSamples.length =
        sp.1.distanceSamples.length + ExtSim.countSends evs := by
  intro evs
  induction evs with
  | nil =>
    intro sp
    simp [ExtSim.runFrom, ExtSim.countSends]
  | cons ev rest ih =>
    intro sp
    have hrest := ih (ExtSim.step cfg s sp ev)
    have hcons : ExtSim.runFrom cfg s sp (ev :: rest) =
        ExtSim.runFrom cfg s (ExtSim.step cfg s sp ev) rest := by
      simp [ExtSim.runFrom]
    rw [hcons]
    cases ev with
    | send d uid now =>
      have hl := ext_send_lists cfg s d uid now sp.1 sp.2
      simp only [ExtSim.step] at hrest ⊢
      rw [hrest.1, hrest.2.1, hrest.2.2.1, hrest.2.2.2,
        hl.1, hl.2.1, hl.2.2.1, hl.2.2.2]
      simp only [ExtSim.countSends]
      omega
    | recv uid now =>
      have hl := ext_recv_lists sp.1 uid now
      simp only [ExtSim.step] at hrest ⊢
      rw [hrest.1, hrest.2.1, hrest.2.2.1, hrest.2.2.2,
        hl.1, hl.2.1, hl.2.2.1, hl.2.2.2]
      simp [ExtSim.countSends]
    | confirm ok =>
      have hl := ext_confirm_lists sp.1 ok
      simp only [ExtSim.step] at hrest ⊢
      rw [hrest.1, hrest.2.1, hrest.2.2.1, hrest.2.2.2,
        hl.1, hl.2.1, hl.2.2.1, hl.2.2.2]
      simp [ExtSim.countSends]

/-- Claim C10: every channel evaluation, delivered or dropped, appends
exactly one sample to each sample list: in the extended variant one SNR, one
fading, one received-power and one distance sample
(`SimulateChannel`/`g_stats` pushes of `zigbee-extended-sim.cc`), in ver3
one SNR and one fading sample (`SimulateChannelEffects` of
`smart-home-zigbee-complete-ver3.cc`) — the first two conjuncts hold with no
condition on the outcome, so dropped packets' samples are included.
Consequently, over any run of the extended variant the four lists all have
length equal to the number of unicast send events (third conjunct). -/
theorem C10_sample_lists :
    (∀ (cfg : ExtSim.ChannelConfig) (d : ℝ) (s : Nat → ℝ) (p : Nat)
        (st : ExtSim.SimStats),
      (ExtSim.SimulateChannelStats cfg d s p st).2.1.snrSamples.length =
        st.snrSamples.length + 1 ∧
      (ExtSim.SimulateChannelStats cfg d s p st).2.1.fadingSamples.length =
        st.fadingSamples.length + 1 ∧
      (ExtSim.SimulateChannelStats cfg d s p st).2.1.rxPowerSamples.length =
        st.rxPowerSamples.length + 1 ∧
      (ExtSim.SimulateChannelStats cfg d s p st).2.1.distanceSamples.length =
        st.distanceSamples.length + 1) ∧
    (∀ (d : ℝ) (s : Nat → ℝ) (p : Nat) (st : Ver3.NetworkStats),
      (Ver3.SimulateChannelEffects d s p st).2.1.snrValues.length =
        st.snrValues.length + 1 ∧
      (Ver3.SimulateChannelEffects d s p st).2.1.fadingCoefficients.length =
        st.fadingCoefficients.length + 1) ∧
    (∀ (cfg : ExtSim.ChannelConfig) (s : Nat → ℝ) (evs : List ExtSim.Event),
      (ExtSim.run cfg s evs).1.snrSamples.length = ExtSim.countSends evs ∧
      (ExtSim.run cfg s evs).1.fadingSamples.length = ExtSim.countSends evs ∧
      (ExtSim.run cfg s evs).1.rxPowerSamples.length = ExtSim.countSends evs ∧
      (ExtSim.run cfg s evs).1.distanceSamples.length = ExtSim.countSends evs) := by
  refine ⟨?_, ?_, ?_⟩
  · intro cfg d s p st
    cases houtcome : (ExtSim.SimulateChannel cfg d s p).1.outcome <;>
      simp [ExtSim.SimulateChannelStats, houtcome]
  · intro d s p st
    constructor <;>
      · simp only [Ver3.SimulateChannelEffects]
        split
        · split <;> simp
        · simp
  · intro cfg s evs
    have h := runFrom_lists cfg s evs (ExtSim.initStats, 0)
    simpa [ExtSim.run, ExtSim.initStats] using h

/-- The entropy stream whose every variate is 2 (a second possible
`std::random_device` outcome for ver3's generator seed). -/
noncomputable def wstreamTwo : Nat → ℝ := fun _ => 2

theorem v3_fading_one_of_ones :
    Ver3.GenerateRayleighFading wstreamOne 0 = (1, 2) := by
  have h2 : Real.sqrt 2 / Real.sqrt 2 = 1 :=
    div_self (Real.sqrt_ne_zero'.mpr (by norm_num))
  simp only [Ver3.GenerateRayleighFading, wstreamOne]
  norm_num [h2]

theorem v3_fading_two_of_twos :
    Ver3.GenerateRayleighFading wstreamTwo 0 = (2, 2) := by
  have h8 : Real.sqrt 8 = 2 * Real.sqrt 2 := by
    rw [show (8 : ℝ) = 4 * 2 by norm_num,
      Real.sqrt_mul (by norm_num : (0 : ℝ) ≤ 4),
      show (4 : ℝ) = 2 ^ 2 by norm_num, Real.sqrt_sq (by norm_num : (0 : ℝ) ≤ 2)]
  have hdiv : Real.sqrt 8 / Real.sqrt 2 = 2 := by
    rw [h8, mul_div_assoc,
      div_self (Real.sqrt_ne_zero'.mpr (by norm_num : (0 : ℝ) < 2)), mul_one]
  simp only [Ver3.GenerateRayleighFading, wstreamTwo]
  norm_num [hdiv]

theorem v3_send_fading_proj (d : ℝ) (uid : Nat) (now : Int) (s : Nat → ℝ)
    (p : Nat) (st : Ver3.NetworkStats) :
    (Ver3.SendTemperatureReading d uid now s p st).1.fadingCoefficients =
      st.fadingCoefficients ++ [(Ver3.GenerateRayleighFading s p).1] := by
  have hch : (Ver3.SimulateChannelEffects d s p st).2.1.fadingCoefficients =
      st.fadingCoefficients ++ [(Ver3.GenerateRayleighFading s p).1] := by
    simp only [Ver3.SimulateChannelEffects, Ver3.CalculateReceivedPower]
    split
    · split <;> simp
    · simp
  by_cases hsucc : (Ver3.SimulateChannelEffects d s p st).1 = false
  · simp [Ver3.SendTemperatureReading, hsucc, hch]
  · simp [Ver3.SendTemperatureReading, hsucc, hch]

/-- Claim C6 as amended: in the extended variant, whose single generator
`g_rng` is seeded with the constant 42, all channel draws come from that one
stream, consumed at sequential positions — exactly two per fading sample
when fading is enabled and one per noise sample when noise is enabled
(second conjunct) — and two runs with identical configuration, identical
variate stream and identical call sequence produce identical statistics
(all sample lists and counters) and final generator position (first
conjunct).  The claim as stated is false for ver3, whose generator is
seeded from `std::random_device` rather than from any configured seed: see
the counterexample theorem. -/
theorem C6_reproducibility (cfg1 cfg2 : ExtSim.ChannelConfig)
    (s1 s2 : Nat → ℝ) (evs1 evs2 : List ExtSim.Event) (hc : cfg1 = cfg2)
    (hs : s1 = s2) (he : evs1 = evs2) :
    ExtSim.run cfg1 s1 evs1 = ExtSim.run cfg2 s2 evs2 ∧
    (∀ (d : ℝ) (p : Nat),
      (ExtSim.SimulateChannel cfg1 d s1 p).2 =
        p + (if cfg1.enableFading = true then 2 else 0) +
          (if cfg1.enableNoise = true then 1 else 0)) := by
  subst hc
  subst hs
  subst he
  refine ⟨rfl, ?_⟩
  intro d p
  cases hf : cfg1.enableFading <;> cases hn : cfg1.enableNoise <;>
    simp [ExtSim.SimulateChannel, ExtSim.GenerateRayleighFading,
      ExtSim.GenerateNoisePower, hf, hn]

/-- Witness for C6: two textually identical runs of one send event under
`wcfgOff` coincide, and an evaluation with fading and noise disabled
consumes no stream position at all. -/
theorem C6_reproducibility_witness :
    ExtSim.run wcfgOff wstreamOne [ExtSim.Event.send 1 7 0] =
      ExtSim.run wcfgOff wstreamOne [ExtSim.Event.send 1 7 0] ∧
    (ExtSim.SimulateChannel wcfgOff 1 wstreamOne 0).2 = 0 := by
  have h := C6_reproducibility wcfgOff wcfgOff wstreamOne wstreamOne
    [ExtSim.Event.send 1 7 0] [ExtSim.Event.send 1 7 0] rfl rfl rfl
  refine ⟨h.1, ?_⟩
  have h2 := h.2 1 0
  simpa [wcfgOff] using h2

/-- Counterexample for C6 as stated: ver3's channel generator is
`std::mt19937 gen(rd())` — seeded from `std::random_device`, not from any
configuration value (the file's `RngSeedManager::SetSeed(12345)` governs
only the ns-3 streams).  Two runs with the identical (constant)
configuration, identical call sequence and distinct entropy — here the
variate streams drawing all 1s and all 2s — produce different fading sample
sequences after a single send: `[1]` versus `[2]`.  The sample sequence is
therefore not reproducible from seed and configuration. -/
theorem C6_claim_counterexample :
    (Ver3.SendTemperatureReading 1 0 0 wstreamOne 0
        Ver3.initNetworkStats).1.fadingCoefficients = [1] ∧
    (Ver3.SendTemperatureReading 1 0 0 wstreamTwo 0
        Ver3.initNetworkStats).1.fadingCoefficients = [2] ∧
    (Ver3.SendTemperatureReading 1 0 0 wstreamOne 0
        Ver3.initNetworkStats).1.fadingCoefficients ≠
      (Ver3.SendTemperatureReading 1 0 0 wstreamTwo 0
        Ver3.initNetworkStats).1.fadingCoefficients := by
  have h1 : (Ver3.SendTemperatureReading 1 0 0 wstreamOne 0
      Ver3.initNetworkStats).1.fadingCoefficients = [1] := by
    rw [v3_send_fading_proj, v3_fading_one_of_ones]
    rfl
  have h2 : (Ver3.SendTemperatureReading 1 0 0 wstreamTwo 0
      Ver3.initNetworkStats).1.fadingCoefficients = [2] := by
    rw [v3_send_fading_proj, v3_fading_two_of_twos]
    rfl
  refine ⟨h1, h2, ?_⟩
  rw [h1, h2]
  simp

end SmartHomeZigbee
